import Mathlib

/-!
Verification of the GPA calculator's computational core.

The program's numbers are modelled as rationals (`ℚ`).  The Python value
`None`, used both as the "excluded from GPA" marker for grade points and as
the failure result of `calculate_cumulative_gpa`, is modelled as `Option.none`
at the corresponding types.  The what-if button handler's three non-result
outcomes (the two `st.error` messages and the `st.warning` message) are
modelled as distinct constructors of an outcome type, alongside the computed
result.
-/

/-- From `get_grade_point` (app.py lines 6-17): a dictionary lookup on the
letter grade with default value `0.0`; `"Pass"` maps to Python `None`
(modelled as `Option.none`, the excluded marker). -/
def get_grade_point (grade : String) : Option ℚ :=
  if grade = "A+" then some 4
  else if grade = "A" then some 4
  else if grade = "A-" then some (37/10)
  else if grade = "B+" then some (33/10)
  else if grade = "B" then some 3
  else if grade = "B-" then some (27/10)
  else if grade = "C+" then some (23/10)
  else if grade = "C" then some 2
  else if grade = "C-" then some (17/10)
  else if grade = "D+" then some (13/10)
  else if grade = "D" then some 1
  else if grade = "D-" then some (7/10)
  else if grade = "F" then some 0
  else if grade = "Pass" then none
  else if grade = "Fail" then some 0
  else some 0

/-- The keys of the grade table in `get_grade_point`. -/
def gradeTableKeys : List String :=
  ["A+", "A", "A-", "B+", "B", "B-", "C+", "C", "C-", "D+", "D", "D-",
   "F", "Pass", "Fail"]

/-- From `calculate_gpa` (app.py line 21):
`sum(c * gp for c, gp in zip(credits_list, grade_points_list) if gp is not None)`. -/
def total_grade_points (credits_list : List ℚ) (grade_points_list : List (Option ℚ)) : ℚ :=
  ((credits_list.zip grade_points_list).filterMap
    (fun p => p.2.map (fun gp => p.1 * gp))).sum

/-- From `calculate_gpa` (app.py line 22):
`sum(c for c, gp in zip(credits_list, grade_points_list) if gp is not None)`. -/
def total_credits (credits_list : List ℚ) (grade_points_list : List (Option ℚ)) : ℚ :=
  ((credits_list.zip grade_points_list).filterMap
    (fun p => p.2.map (fun _ => p.1))).sum

/-- From `calculate_gpa` (app.py lines 19-26): weighted average of the
zipped credit/grade-point pairs, `0.0` when the credit total is zero. -/
def calculate_gpa (credits_list : List ℚ) (grade_points_list : List (Option ℚ)) : ℚ :=
  if total_credits credits_list grade_points_list = 0 then 0
  else total_grade_points credits_list grade_points_list /
    total_credits credits_list grade_points_list

/-- Spec-side numerator: sum over non-excluded pairs of credit × point. -/
def gpaNumerator (credits_list : List ℚ) (grade_points_list : List (Option ℚ)) : ℚ :=
  (((credits_list.zip grade_points_list).filter (fun p => p.2.isSome)).map
    (fun p => p.1 * p.2.getD 0)).sum

/-- Spec-side denominator: sum over non-excluded pairs of credit. -/
def gpaDenominator (credits_list : List ℚ) (grade_points_list : List (Option ℚ)) : ℚ :=
  (((credits_list.zip grade_points_list).filter (fun p => p.2.isSome)).map
    Prod.fst).sum

/-- From `calculate_cumulative_gpa` (app.py lines 28-42).  The Python
function shows `st.error` and returns `None` for negative credits; that
failure is modelled as `Option.none`. -/
def calculate_cumulative_gpa (current_gpa current_credits new_gpa new_credits : ℚ) :
    Option ℚ :=
  if current_credits < 0 ∨ new_credits < 0 then none
  else
    let current_total_grade_points := current_gpa * current_credits
    let new_total_grade_points := new_gpa * new_credits
    let combined_total_credits := current_credits + new_credits
    let combined_total_grade_points := current_total_grade_points + new_total_grade_points
    if combined_total_credits = 0 then some 0
    else some (combined_total_grade_points / combined_total_credits)

/-- Outcome of the "Calculate Required Next Semester GPA" button handler
(app.py lines 147-171): the two `st.error` branches, the `st.warning`
branch, or a computed required GPA. -/
inductive WhatIfOutcome where
  | errorTotalZero
  | warnNoCredits
  | errorKnownExceeds
  | result (gpa : ℚ)
deriving DecidableEq

/-- From the "What If Scenario" button handler (app.py lines 147-171).
`knowSome` is the radio choice `"I know some of my grades"`;
`known_credits` and `known_grade_points` are the sums built on lines
141-142 (both `0` in the other mode); `remaining_credits` is
`next_semester_credits - known_credits` as on line 143. -/
def whatIf (current_gpa current_credits desired_gpa next_semester_credits : ℚ)
    (knowSome : Bool) (known_credits known_grade_points : ℚ) : WhatIfOutcome :=
  let remaining_credits :=
    if knowSome then next_semester_credits - known_credits else next_semester_credits
  if current_credits + next_semester_credits = 0 then .errorTotalZero
  else if next_semester_credits = 0 then .warnNoCredits
  else if knowSome ∧ remaining_credits < 0 then .errorKnownExceeds
  else if knowSome then
    if remaining_credits > 0 then
      .result ((desired_gpa * (current_credits + next_semester_credits)
        - current_gpa * current_credits - known_grade_points) / remaining_credits)
    else .result 0
  else
    if next_semester_credits > 0 then
      .result ((desired_gpa * (current_credits + next_semester_credits)
        - current_gpa * current_credits) / next_semester_credits)
    else .result 0

/-- Minimum of a list of rationals (meaningful on nonempty lists). -/
def listMin : List ℚ → ℚ
  | [] => 0
  | [x] => x
  | x :: y :: xs => min x (listMin (y :: xs))

/-- Maximum of a list of rationals (meaningful on nonempty lists). -/
def listMax : List ℚ → ℚ
  | [] => 0
  | [x] => x
  | x :: y :: xs => max x (listMax (y :: xs))

/-! ### Helper lemmas -/

lemma total_grade_points_eq_gpaNumerator (cs : List ℚ) (gps : List (Option ℚ)) :
    total_grade_points cs gps = gpaNumerator cs gps := by
  unfold total_grade_points gpaNumerator
  congr 1
  induction cs.zip gps with
  | nil => rfl
  | cons p l ih =>
    rcases p with ⟨c, g⟩
    cases g <;> simp [List.filterMap_cons, List.filter_cons, ih]

lemma total_credits_eq_gpaDenominator (cs : List ℚ) (gps : List (Option ℚ)) :
    total_credits cs gps = gpaDenominator cs gps := by
  unfold total_credits gpaDenominator
  congr 1
  induction cs.zip gps with
  | nil => rfl
  | cons p l ih =>
    rcases p with ⟨c, g⟩
    cases g <;> simp [List.filterMap_cons, List.filter_cons, ih]

/-! ### C1: GPA aggregation -/

/-- Claim C1: with equal-length inputs, `calculate_gpa` skips
excluded-marker pairs from both sums, returns exactly `0` when the
non-excluded credit total is `0` (in particular on empty lists), and
otherwise returns the non-excluded weighted sum divided by the
non-excluded credit total. -/
theorem calculate_gpa_spec (cs : List ℚ) (gps : List (Option ℚ))
    (_h : cs.length = gps.length) :
    (gpaDenominator cs gps = 0 → calculate_gpa cs gps = 0) ∧
    (gpaDenominator cs gps ≠ 0 →
      calculate_gpa cs gps = gpaNumerator cs gps / gpaDenominator cs gps) := by
  unfold calculate_gpa
  rw [total_grade_points_eq_gpaNumerator, total_credits_eq_gpaDenominator]
  constructor
  · intro h0; simp [h0]
  · intro h0; simp [h0]

/-- Witness for C1 at credits `[3, 2, 4]` and points `[A, Pass, B]`:
the Pass pair is skipped, the result is `(3·4 + 4·3) / (3 + 4) = 24/7`. -/
theorem calculate_gpa_spec_witness :
    ([(3 : ℚ), 2, 4].length = [some (4 : ℚ), none, some 3].length) ∧
    gpaDenominator [(3 : ℚ), 2, 4] [some (4 : ℚ), none, some 3] ≠ 0 ∧
    calculate_gpa [(3 : ℚ), 2, 4] [some (4 : ℚ), none, some 3] = 24/7 := by
  have hden : gpaDenominator [(3 : ℚ), 2, 4] [some (4 : ℚ), none, some 3] = 7 := by
    simp [gpaDenominator]; norm_num
  have hnum : gpaNumerator [(3 : ℚ), 2, 4] [some (4 : ℚ), none, some 3] = 24 := by
    simp [gpaNumerator]; norm_num
  refine ⟨by decide, by rw [hden]; norm_num, ?_⟩
  have h := (calculate_gpa_spec [(3 : ℚ), 2, 4] [some (4 : ℚ), none, some 3]
    (by decide)).2 (by rw [hden]; norm_num)
  rw [h, hden, hnum]

/-! ### C3: cumulative GPA combiner -/

/-- Claim C3: for non-negative prior and new credits,
`calculate_cumulative_gpa` succeeds with the credit-weighted combination,
and with `0` when the combined credit total is `0`. -/
theorem calculate_cumulative_gpa_spec (g pc ng nc : ℚ)
    (h1 : 0 ≤ pc) (h2 : 0 ≤ nc) :
    (pc + nc = 0 → calculate_cumulative_gpa g pc ng nc = some 0) ∧
    (pc + nc ≠ 0 →
      calculate_cumulative_gpa g pc ng nc = some ((g * pc + ng * nc) / (pc + nc))) := by
  unfold calculate_cumulative_gpa
  rw [if_neg (by push_neg; exact ⟨h1, h2⟩)]
  constructor
  · intro h0; simp [h0]
  · intro h0; simp [h0]

/-- Witness for C3: `calculate_cumulative_gpa 3 60 4 15 = some (16/5)`,
the spec's example `3.2 = (3.0·60 + 4.0·15)/75`. -/
theorem calculate_cumulative_gpa_spec_witness :
    calculate_cumulative_gpa 3 60 4 15 = some (16/5) := by
  have h := (calculate_cumulative_gpa_spec 3 60 4 15 (by norm_num) (by norm_num)).2
    (by norm_num)
  rw [h]
  norm_num

/-! ### C4: grade point mapper -/

/-- Claim C4: `get_grade_point` returns exactly the fixed table values
(`Pass` mapping to the excluded marker `none`), and `some 0` on every
string outside the table, without failing. -/
theorem get_grade_point_spec :
    (get_grade_point "A+" = some 4 ∧ get_grade_point "A" = some 4 ∧
     get_grade_point "A-" = some (37/10) ∧ get_grade_point "B+" = some (33/10) ∧
     get_grade_point "B" = some 3 ∧ get_grade_point "B-" = some (27/10) ∧
     get_grade_point "C+" = some (23/10) ∧ get_grade_point "C" = some 2 ∧
     get_grade_point "C-" = some (17/10) ∧ get_grade_point "D+" = some (13/10) ∧
     get_grade_point "D" = some 1 ∧ get_grade_point "D-" = some (7/10) ∧
     get_grade_point "F" = some 0 ∧ get_grade_point "Pass" = none ∧
     get_grade_point "Fail" = some 0) ∧
    (∀ g : String, g ∉ gradeTableKeys → get_grade_point g = some 0) := by
  constructor
  · refine ⟨?_, ?_, ?_, ?_, ?_, ?_, ?_, ?_, ?_, ?_, ?_, ?_, ?_, ?_, ?_⟩ <;>
      simp +decide [get_grade_point]
  · intro g hg
    simp only [gradeTableKeys, List.mem_cons, List.not_mem_nil, or_false] at hg
    push_neg at hg
    obtain ⟨n1, n2, n3, n4, n5, n6, n7, n8, n9, n10, n11, n12, n13, n14, n15⟩ := hg
    unfold get_grade_point
    simp [n1, n2, n3, n4, n5, n6, n7, n8, n9, n10, n11, n12, n13, n14, n15]

/-- Witness for C4: the unknown symbol `"Z"` is outside the table and maps
to `some 0`. -/
theorem get_grade_point_spec_witness :
    "Z" ∉ gradeTableKeys ∧ get_grade_point "Z" = some 0 :=
  ⟨by decide, get_grade_point_spec.2 "Z" (by decide)⟩

/-! ### C6: combiner rejects negative credits -/

/-- Claim C6: `calculate_cumulative_gpa` fails (returns `none`, the model
of the `st.error` / `return None` path) whenever either credit argument is
negative. -/
theorem calculate_cumulative_gpa_neg (g pc ng nc : ℚ)
    (h : pc < 0 ∨ nc < 0) :
    calculate_cumulative_gpa g pc ng nc = none := by
  unfold calculate_cumulative_gpa
  rw [if_pos h]

/-- Witness for C6: the spec's example `combineCumulative(3.0, -5, 3.5, 10)`
fails. -/
theorem calculate_cumulative_gpa_neg_witness :
    calculate_cumulative_gpa 3 (-5) (7/2) 10 = none :=
  calculate_cumulative_gpa_neg 3 (-5) (7/2) 10 (Or.inl (by norm_num))

/-! ### What-if handler lemmas -/

lemma whatIf_noKnown_formula (g cc d fc : ℚ) (h1 : 0 ≤ cc) (h2 : 0 < fc) :
    whatIf g cc d fc false 0 0 = .result ((d * (cc + fc) - g * cc) / fc) := by
  have hsum : cc + fc ≠ 0 := by positivity
  simp [whatIf, hsum, h2.ne', h2]

lemma whatIf_known_formula (g cc d fc kc kp : ℚ)
    (h1 : 0 ≤ cc) (h2 : 0 ≤ kc) (h3 : 0 < fc - kc) :
    whatIf g cc d fc true kc kp =
      .result ((d * (cc + fc) - g * cc - kp) / (fc - kc)) := by
  have hfc : 0 < fc := by linarith
  have hsum : cc + fc ≠ 0 := by positivity
  have hnneg : ¬(fc - kc < 0) := not_lt.mpr h3.le
  simp [whatIf, hsum, hfc.ne', hnneg, h3]

lemma calculate_cumulative_gpa_nonneg (g cc ng nc : ℚ) (h1 : 0 ≤ cc) (h2 : 0 ≤ nc) :
    calculate_cumulative_gpa g cc ng nc =
      some (if cc + nc = 0 then 0 else (g * cc + ng * nc) / (cc + nc)) := by
  unfold calculate_cumulative_gpa
  rw [if_neg (by push_neg; exact ⟨h1, h2⟩)]
  by_cases hck : cc + nc = 0
  · rw [if_pos hck, if_pos hck]
  · rw [if_neg hck, if_neg hck]

/-! ### C2: required-GPA formulas, unclamped -/

/-- Claim C2: with a positive relevant denominator the button handler
returns exactly the closed-form required GPA in each mode, and the value
is not clamped to `[0, 4]`: at the spec's example it is `11/2 > 4`, and it
can be negative. -/
theorem whatIf_required_formula :
    (∀ g cc d fc : ℚ, 0 ≤ cc → 0 < fc →
      whatIf g cc d fc false 0 0 = .result ((d * (cc + fc) - g * cc) / fc)) ∧
    (∀ g cc d fc kc kp : ℚ, 0 ≤ cc → 0 ≤ kc → 0 < fc - kc →
      whatIf g cc d fc true kc kp =
        .result ((d * (cc + fc) - g * cc - kp) / (fc - kc))) ∧
    (whatIf 3 60 (7/2) 15 false 0 0 = .result (11/2) ∧ (4 : ℚ) < 11/2) ∧
    (whatIf 3 60 2 15 false 0 0 = .result (-2) ∧ (-2 : ℚ) < 0) := by
  refine ⟨fun g cc d fc h1 h2 => whatIf_noKnown_formula g cc d fc h1 h2,
    fun g cc d fc kc kp h1 h2 h3 => whatIf_known_formula g cc d fc kc kp h1 h2 h3,
    ⟨?_, by norm_num⟩, ⟨?_, by norm_num⟩⟩
  · have h : ((7/2) * ((60 : ℚ) + 15) - 3 * 60) / 15 = 11/2 := by norm_num
    rw [whatIf_noKnown_formula 3 60 (7/2) 15 (by norm_num) (by norm_num), h]
  · have h : ((2 : ℚ) * ((60 : ℚ) + 15) - 3 * 60) / 15 = -2 := by norm_num
    rw [whatIf_noKnown_formula 3 60 2 15 (by norm_num) (by norm_num), h]

/-- Witness for C2: both modes evaluated at the spec's example inputs. -/
theorem whatIf_required_formula_witness :
    whatIf 3 60 (7/2) 15 false 0 0 =
      .result (((7/2) * ((60 : ℚ) + 15) - 3 * 60) / 15) ∧
    whatIf 3 60 (7/2) 15 true 6 (114/5) =
      .result (((7/2) * ((60 : ℚ) + 15) - 3 * 60 - 114/5) / (15 - 6)) :=
  ⟨whatIf_required_formula.1 3 60 (7/2) 15 (by norm_num) (by norm_num),
   whatIf_required_formula.2.1 3 60 (7/2) 15 6 (114/5)
     (by norm_num) (by norm_num) (by norm_num)⟩

/-! ### C5: projector edge cases (corrected) -/

/-- Counterexample to C5 as stated: with `futureCredits = 0` (and a
nonzero total-credit basis) the handler emits the warning branch and does
not return `0.0`. -/
theorem whatIf_zero_future_cex :
    whatIf 3 60 (7/2) 0 false 0 0 = .warnNoCredits ∧
    whatIf 3 60 (7/2) 0 false 0 0 ≠ .result 0 := by
  have h : whatIf 3 60 (7/2) 0 false 0 0 = .warnNoCredits := by
    norm_num [whatIf]
  exact ⟨h, by rw [h]; exact fun hc => WhatIfOutcome.noConfusion hc⟩

/-- Amended C5: the handler errors when `currentCredits + futureCredits = 0`;
otherwise it warns (producing no value) when `futureCredits = 0`; otherwise
it errors in known-grades mode when `futureCredits - knownCredits < 0`; and
in known-grades mode with `futureCredits > 0` and zero remaining credits it
returns `0.0` rather than faulting. -/
theorem whatIf_edge_cases :
    (∀ g cc d fc kc kp : ℚ, ∀ b : Bool, cc + fc = 0 →
      whatIf g cc d fc b kc kp = .errorTotalZero) ∧
    (∀ g cc d fc kc kp : ℚ, ∀ b : Bool, cc + fc ≠ 0 → fc = 0 →
      whatIf g cc d fc b kc kp = .warnNoCredits) ∧
    (∀ g cc d fc kc kp : ℚ, cc + fc ≠ 0 → fc ≠ 0 → fc - kc < 0 →
      whatIf g cc d fc true kc kp = .errorKnownExceeds) ∧
    (∀ g cc d fc kc kp : ℚ, 0 ≤ cc → 0 < fc → fc - kc = 0 →
      whatIf g cc d fc true kc kp = .result 0) := by
  refine ⟨?_, ?_, ?_, ?_⟩
  · intro g cc d fc kc kp b h0
    simp [whatIf, h0]
  · intro g cc d fc kc kp b h0 h1
    have h2 : cc ≠ 0 := by rw [h1] at h0; simpa using h0
    simp [whatIf, h0, h1, h2]
  · intro g cc d fc kc kp h0 h1 h2
    simp [whatIf, h0, h1, h2]
  · intro g cc d fc kc kp h0 h1 h2
    have hsum : cc + fc ≠ 0 := by positivity
    simp [whatIf, hsum, h1.ne', h2]

/-- Witness for the amended C5: all four outcomes hit at concrete inputs. -/
theorem whatIf_edge_cases_witness :
    whatIf 3 0 (7/2) 0 false 0 0 = .errorTotalZero ∧
    whatIf 3 60 (7/2) 0 true 0 0 = .warnNoCredits ∧
    whatIf 3 60 (7/2) 15 true 20 60 = .errorKnownExceeds ∧
    whatIf 3 60 (7/2) 15 true 15 45 = .result 0 :=
  ⟨whatIf_edge_cases.1 3 0 (7/2) 0 0 0 false (by norm_num),
   whatIf_edge_cases.2.1 3 60 (7/2) 0 0 0 true (by norm_num) rfl,
   whatIf_edge_cases.2.2.1 3 60 (7/2) 15 20 60
     (by norm_num) (by norm_num) (by norm_num),
   whatIf_edge_cases.2.2.2 3 60 (7/2) 15 15 45
     (by norm_num) (by norm_num) (by norm_num)⟩

/-! ### C8: known-grades mode refines the no-known-grades formula -/

/-- Claim C8: with `0 ≤ knownCredits ≤ futureCredits` and positive remaining
credits, the known-grades computation equals the no-known-grades computation
applied to the standing obtained by first combining the known portion (GPA
`kgpa` over `kc` credits, i.e. `kc * kgpa` grade points) into the current
standing, with `futureCredits - knownCredits` as the future credits. -/
theorem whatIf_known_refines (g cc d fc kc kgpa : ℚ)
    (h1 : 0 ≤ cc) (h2 : 0 ≤ kc) (_h3 : kc ≤ fc) (h4 : 0 < fc - kc) :
    (calculate_cumulative_gpa g cc kgpa kc).isSome = true ∧
    ∀ gComb : ℚ, calculate_cumulative_gpa g cc kgpa kc = some gComb →
      whatIf g cc d fc true kc (kc * kgpa) =
        whatIf gComb (cc + kc) d (fc - kc) false 0 0 := by
  have hcomb := calculate_cumulative_gpa_nonneg g cc kgpa kc h1 h2
  constructor
  · rw [hcomb]; rfl
  · intro gComb hg
    rw [hcomb] at hg
    have hg' := Option.some.inj hg
    subst hg'
    rw [whatIf_known_formula g cc d fc kc (kc * kgpa) h1 h2 h4,
        whatIf_noKnown_formula _ _ _ _ (add_nonneg h1 h2) h4]
    congr 1
    by_cases hck : cc + kc = 0
    · have hc0 : cc = 0 := le_antisymm (by linarith) h1
      have hk0 : kc = 0 := by linarith
      subst hc0; subst hk0
      norm_num
    · rw [if_neg hck]
      have h5 : fc - kc ≠ 0 := h4.ne'
      field_simp
      ring

/-- Witness for C8 at the spec's example: current `3.0` over `60` credits,
desired `3.5` over `15` future credits, `6` credits known at `3.8`. -/
theorem whatIf_known_refines_witness :
    (calculate_cumulative_gpa 3 60 (19/5) 6).isSome = true ∧
    whatIf 3 60 (7/2) 15 true 6 (6 * (19/5)) =
      whatIf ((3 * 60 + (19/5) * 6) / (60 + 6)) (60 + 6) (7/2) (15 - 6) false 0 0 := by
  have h := whatIf_known_refines 3 60 (7/2) 15 6 (19/5)
    (by norm_num) (by norm_num) (by norm_num) (by norm_num)
  refine ⟨h.1, h.2 _ ?_⟩
  rw [calculate_cumulative_gpa_nonneg 3 60 (19/5) 6 (by norm_num) (by norm_num)]
  norm_num

/-! ### C10: projector/combiner round trip -/

/-- Claim C10: combining the current standing with `futureCredits` credits
earned at exactly the required GPA returned by the no-known-grades
projector yields exactly the desired GPA. -/
theorem whatIf_roundtrip (g cc d fc : ℚ) (h1 : 0 ≤ cc) (h2 : 0 < fc) :
    whatIf g cc d fc false 0 0 = .result ((d * (cc + fc) - g * cc) / fc) ∧
    calculate_cumulative_gpa g cc ((d * (cc + fc) - g * cc) / fc) fc = some d := by
  refine ⟨whatIf_noKnown_formula g cc d fc h1 h2, ?_⟩
  rw [calculate_cumulative_gpa_nonneg g cc _ fc h1 h2.le]
  have hsum : cc + fc ≠ 0 := by positivity
  rw [if_neg hsum]
  congr 1
  rw [div_mul_cancel₀ _ h2.ne']
  have h : g * cc + (d * (cc + fc) - g * cc) = d * (cc + fc) := by ring
  rw [h, mul_div_cancel_right₀ d hsum]

/-- Witness for C10: at the spec's example the required GPA is `11/2` and
combining it back yields the desired `3.5`. -/
theorem whatIf_roundtrip_witness :
    whatIf 3 60 (7/2) 15 false 0 0 =
      .result (((7/2) * ((60 : ℚ) + 15) - 3 * 60) / 15) ∧
    calculate_cumulative_gpa 3 60 (((7/2) * ((60 : ℚ) + 15) - 3 * 60) / 15) 15 =
      some (7/2) :=
  whatIf_roundtrip 3 60 (7/2) 15 (by norm_num) (by norm_num)

/-! ### C7: mismatched lengths (corrected) -/

lemma zip_take_min (cs : List ℚ) (gps : List (Option ℚ)) :
    (cs.take (min cs.length gps.length)).zip (gps.take (min cs.length gps.length)) =
      cs.zip gps := by
  induction cs generalizing gps with
  | nil => simp
  | cons c cs ih =>
    cases gps with
    | nil => simp
    | cons g gs =>
      simp only [List.length_cons, Nat.succ_min_succ, List.take_succ_cons,
        List.zip_cons_cons, ih]

/-- Counterexample to C7 as stated: on lists of unequal length
`calculate_gpa` does not signal any failure; at credits `[2, 3]` against
the single point `some 4` it silently computes `(2·4)/2 = 4`. -/
theorem calculate_gpa_mismatch_cex :
    [(2 : ℚ), 3].length ≠ [some (4 : ℚ)].length ∧
    calculate_gpa [(2 : ℚ), 3] [some (4 : ℚ)] = 4 := by
  constructor
  · decide
  · have hden : total_credits [(2 : ℚ), 3] [some (4 : ℚ)] = 2 := by
      simp [total_credits]
    have hnum : total_grade_points [(2 : ℚ), 3] [some (4 : ℚ)] = 8 := by
      simp [total_grade_points]; norm_num
    unfold calculate_gpa
    rw [hden, hnum]
    norm_num

/-- Amended C7: on sequences of unequal length `calculate_gpa` raises
nothing; it silently truncates both lists to the shorter length (Python's
`zip`) and computes the GPA of the positionally-paired prefix. -/
theorem calculate_gpa_truncates (cs : List ℚ) (gps : List (Option ℚ)) :
    calculate_gpa cs gps =
      calculate_gpa (cs.take (min cs.length gps.length))
        (gps.take (min cs.length gps.length)) := by
  unfold calculate_gpa total_credits total_grade_points
  rw [zip_take_min]

/-! ### C9: aggregate lies between min and max (corrected) -/

lemma listMin_cons_cons (x y : ℚ) (ys : List ℚ) :
    listMin (x :: y :: ys) = min x (listMin (y :: ys)) := rfl

lemma listMax_cons_cons (x y : ℚ) (ys : List ℚ) :
    listMax (x :: y :: ys) = max x (listMax (y :: ys)) := rfl

lemma listMin_le_of_mem (p : ℚ) (ps : List ℚ) (h : p ∈ ps) : listMin ps ≤ p := by
  induction ps with
  | nil => cases h
  | cons x xs ih =>
    cases xs with
    | nil =>
      rcases List.mem_singleton.mp h with rfl
      exact le_refl _
    | cons y ys =>
      rw [listMin_cons_cons]
      rcases List.mem_cons.mp h with rfl | hmem
      · exact min_le_left _ _
      · exact le_trans (min_le_right _ _) (ih hmem)

lemma le_listMax_of_mem (p : ℚ) (ps : List ℚ) (h : p ∈ ps) : p ≤ listMax ps := by
  induction ps with
  | nil => cases h
  | cons x xs ih =>
    cases xs with
    | nil =>
      rcases List.mem_singleton.mp h with rfl
      exact le_refl _
    | cons y ys =>
      rw [listMax_cons_cons]
      rcases List.mem_cons.mp h with rfl | hmem
      · exact le_max_left _ _
      · exact le_trans (ih hmem) (le_max_right _ _)

lemma mul_sum_le_weighted (m : ℚ) (l : List (ℚ × ℚ))
    (h : ∀ x ∈ l, 0 ≤ x.1 ∧ m ≤ x.2) :
    m * (l.map Prod.fst).sum ≤ (l.map (fun x => x.1 * x.2)).sum := by
  induction l with
  | nil => simp
  | cons a t ih =>
    simp only [List.map_cons, List.sum_cons, mul_add]
    have ha := h a (List.mem_cons_self a t)
    have h1 : m * a.1 ≤ a.1 * a.2 := by
      rw [mul_comm]
      exact mul_le_mul_of_nonneg_left ha.2 ha.1
    have h2 := ih (fun x hx => h x (List.mem_cons_of_mem a hx))
    linarith

lemma weighted_le_mul_sum (M : ℚ) (l : List (ℚ × ℚ))
    (h : ∀ x ∈ l, 0 ≤ x.1 ∧ x.2 ≤ M) :
    (l.map (fun x => x.1 * x.2)).sum ≤ M * (l.map Prod.fst).sum := by
  induction l with
  | nil => simp
  | cons a t ih =>
    simp only [List.map_cons, List.sum_cons, mul_add]
    have ha := h a (List.mem_cons_self a t)
    have h1 : a.1 * a.2 ≤ M * a.1 := by
      rw [mul_comm M a.1]
      exact mul_le_mul_of_nonneg_left ha.2 ha.1
    have h2 := ih (fun x hx => h x (List.mem_cons_of_mem a hx))
    linarith

lemma total_credits_map_some (cs ps : List ℚ) :
    total_credits cs (ps.map some) = ((cs.zip ps).map Prod.fst).sum := by
  unfold total_credits
  congr 1
  induction cs generalizing ps with
  | nil => simp
  | cons c cs ih =>
    cases ps with
    | nil => simp
    | cons p ps => simp [List.filterMap_cons, ih]

lemma total_grade_points_map_some (cs ps : List ℚ) :
    total_grade_points cs (ps.map some) =
      ((cs.zip ps).map (fun x => x.1 * x.2)).sum := by
  unfold total_grade_points
  congr 1
  induction cs generalizing ps with
  | nil => simp
  | cons c cs ih =>
    cases ps with
    | nil => simp
    | cons p ps => simp [List.filterMap_cons, ih]

/-- Counterexample to C9 as stated: with credits `[0]` (non-negative) and
points `[3]` (no excluded entries, equal lengths) the credit total is `0`,
so `calculate_gpa` returns the `0.0` fallback, which lies strictly below
the minimum (and maximum) point value `3`. -/
theorem calculate_gpa_bounds_cex :
    calculate_gpa [(0 : ℚ)] ([(3 : ℚ)].map some) = 0 ∧
    ¬(listMin [(3 : ℚ)] ≤ calculate_gpa [(0 : ℚ)] ([(3 : ℚ)].map some)) := by
  have h : calculate_gpa [(0 : ℚ)] ([(3 : ℚ)].map some) = 0 := by
    have hden : total_credits [(0 : ℚ)] ([(3 : ℚ)].map some) = 0 := by
      simp [total_credits]
    unfold calculate_gpa
    rw [hden]
    norm_num
  refine ⟨h, ?_⟩
  rw [h]
  show ¬(listMin [(3 : ℚ)] ≤ 0)
  have : listMin [(3 : ℚ)] = 3 := rfl
  rw [this]
  norm_num

/-- Amended C9: for equal-length sequences with non-negative credits, no
excluded entries, and a positive credit total, `calculate_gpa` lies between
the minimum and maximum of the grade-point sequence. -/
theorem calculate_gpa_bounds (cs ps : List ℚ)
    (hlen : cs.length = ps.length)
    (hnn : ∀ c ∈ cs, 0 ≤ c)
    (hpos : 0 < cs.sum) :
    listMin ps ≤ calculate_gpa cs (ps.map some) ∧
    calculate_gpa cs (ps.map some) ≤ listMax ps := by
  have hfst : ((cs.zip ps).map Prod.fst).sum = cs.sum := by
    rw [List.map_fst_zip cs ps hlen.le]
  have hden : total_credits cs (ps.map some) = cs.sum := by
    rw [total_credits_map_some, hfst]
  have hnum := total_grade_points_map_some cs ps
  have hd0 : total_credits cs (ps.map some) ≠ 0 := by rw [hden]; exact hpos.ne'
  have hpairs : ∀ x ∈ cs.zip ps, 0 ≤ x.1 ∧ listMin ps ≤ x.2 ∧ x.2 ≤ listMax ps := by
    intro x hx
    rcases x with ⟨a, b⟩
    have hmem := List.of_mem_zip hx
    exact ⟨hnn _ hmem.1, listMin_le_of_mem _ _ hmem.2, le_listMax_of_mem _ _ hmem.2⟩
  unfold calculate_gpa
  rw [if_neg hd0, hnum, hden]
  constructor
  · rw [le_div_iff₀ hpos]
    calc listMin ps * cs.sum
        = listMin ps * ((cs.zip ps).map Prod.fst).sum := by rw [hfst]
      _ ≤ ((cs.zip ps).map (fun x => x.1 * x.2)).sum :=
          mul_sum_le_weighted _ _ (fun x hx => ⟨(hpairs x hx).1, (hpairs x hx).2.1⟩)
  · rw [div_le_iff₀ hpos]
    calc ((cs.zip ps).map (fun x => x.1 * x.2)).sum
        ≤ listMax ps * ((cs.zip ps).map Prod.fst).sum :=
          weighted_le_mul_sum _ _ (fun x hx => ⟨(hpairs x hx).1, (hpairs x hx).2.2⟩)
      _ = listMax ps * cs.sum := by rw [hfst]

/-- Witness for the amended C9: credits `[3, 1]` with points `[2, 4]`
give GPA `(3·2 + 1·4)/4 = 5/2`, which lies in `[2, 4]`. -/
theorem calculate_gpa_bounds_witness :
    listMin [(2 : ℚ), 4] ≤ calculate_gpa [(3 : ℚ), 1] ([(2 : ℚ), 4].map some) ∧
    calculate_gpa [(3 : ℚ), 1] ([(2 : ℚ), 4].map some) ≤ listMax [(2 : ℚ), 4] :=
  calculate_gpa_bounds [3, 1] [2, 4] rfl
    (by intro c hc; rcases List.mem_cons.mp hc with rfl | hc' <;> simp_all)
    (by norm_num)
